import Mathlib

/-!
Shallow embedding of the google-ads-api client library (src/service.ts and
the Client construction module) together with proofs about its error
translation, partial-failure decoding, service cache and request builder.
-/

namespace GoogleAdsApi

/-- A binary protobuf buffer, modelled as a list of bytes. -/
abbrev Buffer := List Nat

/-- A single sub-error inside a decoded GoogleAdsFailure. -/
structure GoogleAdsErrorItem where
  error_code : String
  message : String
deriving DecidableEq

/-- The decoded structured failure (`errors.GoogleAdsFailure`): a list of sub-errors. -/
structure GoogleAdsFailure where
  errors : List GoogleAdsErrorItem
deriving DecidableEq

/-- `startsWithChars pat l` is true when `pat` is an initial segment of `l`. -/
def startsWithChars : List Char → List Char → Bool
  | [], _ => true
  | _ :: _, [] => false
  | p :: ps, c :: cs => p == c && startsWithChars ps cs

/-- Scan helper for substring search over character lists. -/
def includesAux (pat : List Char) : List Char → Bool
  | [] => startsWithChars pat []
  | c :: cs => startsWithChars pat (c :: cs) || includesAux pat cs

/-- JavaScript `s.includes(pat)`: `pat` occurs as a contiguous substring of `s`. -/
def strIncludes (s pat : String) : Bool :=
  includesAux pat.data s.data

/-- One entry of a `google.rpc.Status` details list: a type url plus a binary payload. -/
structure ErrorDetail where
  type_url : String
  value : Buffer
deriving DecidableEq

/-- The `partial_failure_error` field of a mutate response; its `details` list is optional. -/
structure PartialFailureError where
  details : Option (List ErrorDetail)
deriving DecidableEq

/-- A mutate response as seen by `decodePartialFailureError`: the optional
`partial_failure_error` plus all of the response's other fields, modelled
abstractly as a key/value list. -/
structure MutateResponse where
  partial_failure_error : Option PartialFailureError
  otherFields : List (String × String)
deriving DecidableEq

/-- The object returned by `decodePartialFailureError`: the decoded partial
failures plus whatever other fields the returned object carries. -/
structure DecodedMutateResponse where
  mutate_operation_responses : List GoogleAdsFailure
  otherFields : List (String × String)
deriving DecidableEq

/-- The predicate used on a detail entry: `d.type_url.includes("errors.GoogleAdsFailure")`. -/
def detailMatches (d : ErrorDetail) : Bool :=
  strIncludes d.type_url "errors.GoogleAdsFailure"

/-- `Service.decodePartialFailureError` (src/service.ts lines 144-157).
`decode` stands for the external protobuf decoder `errors.GoogleAdsFailure.decode`.
The source finds the first detail entry whose type url contains
"errors.GoogleAdsFailure", decodes its payload, keeps it only when its
`errors` list is non-empty, and returns an object holding only the
`mutate_operation_responses` array. -/
def decodePartialFailureError (decode : Buffer → GoogleAdsFailure)
    (response : MutateResponse) : DecodedMutateResponse :=
  let buffer : Option Buffer :=
    ((response.partial_failure_error.bind (fun pfe => pfe.details)).bind
      (fun ds => ds.find? detailMatches)).map (fun d => d.value)
  let mutate_operation_responses : List GoogleAdsFailure :=
    match buffer with
    | some b =>
        let decodedError := decode b
        if decodedError.errors.length > 0 then [decodedError] else []
    | none => []
  { mutate_operation_responses := mutate_operation_responses, otherFields := [] }

/-- The detail entries of a response that match the GoogleAdsFailure type url. -/
def matchingDetails (response : MutateResponse) : List ErrorDetail :=
  ((response.partial_failure_error.bind (fun pfe => pfe.details)).getD []).filter
    detailMatches

/-- Modelled from the spec: the version constant exported by the missing
`./version` module; only its presence inside the metadata key matters. -/
def googleAdsVersion : String := "v16"

/-- `FAILURE_KEY` (src/service.ts line 25): the fixed, versioned binary metadata
key under which the structured failure payload is embedded. -/
def FAILURE_KEY : String :=
  "google.ads.googleads." ++ googleAdsVersion ++ ".errors.googleadsfailure-bin"

/-- A transport error as seen by `getGoogleAdsError`: its message plus the
grpc metadata map (`error.metadata.internalRepr`), a map from keys to lists
of binary values. -/
structure TransportError where
  message : String
  metadata : List (String × List Buffer)
deriving DecidableEq

/-- `error.metadata.internalRepr.get k`: look up a metadata key. -/
def metadataGet (md : List (String × List Buffer)) (k : String) : Option (List Buffer) :=
  (md.find? (fun kv => kv.1 == k)).map (fun kv => kv.2)

/-- Result of `getGoogleAdsError`: either the decoded structured failure or
the original error object passed through. -/
inductive AdsErrorResult where
  | failure (f : GoogleAdsFailure)
  | transport (e : TransportError)
deriving DecidableEq

/-- `Service.getGoogleAdsError` (src/service.ts lines 127-135).  `decode`
stands for `errors.GoogleAdsFailure.decode`.  When the metadata holds no
entry under `FAILURE_KEY` the original error is returned unchanged;
otherwise the first buffer stored under the key is decoded. -/
def getGoogleAdsError (decode : Buffer → GoogleAdsFailure)
    (error : TransportError) : AdsErrorResult :=
  match metadataGet error.metadata FAILURE_KEY with
  | none => .transport error
  | some bufs => .failure (decode (bufs.headD []))

/-- The fields of a parsed service-account key used by the Client flow. -/
structure ServiceAccountKey where
  client_email : String
  private_key : String
deriving DecidableEq

/-- Errors surfaced by client construction. -/
inductive AuthError where
  /-- `JSON.parse` threw on the key document. -/
  | malformedKey
  /-- `jwt.sign` threw. -/
  | signFailure
deriving DecidableEq

deriving instance DecidableEq for Except

/-- Everything observable about one run of the `Client` constructor
(src/unnamed/part_000 lines 36-42 with `initializeServiceAccountFlow`,
`generateJWT` and `exchangeJWTForAccessToken`): what the caller of `new
Client(...)` observes (`result`), whether the token endpoint was contacted
(`exchangeAttempted`), the stored access token, and any rejection raised
inside the un-awaited async exchange (`asyncError`), which reaches no
caller. -/
structure CtorOutcome where
  result : Except AuthError Unit
  exchangeAttempted : Bool
  accessToken : Option String
  asyncError : Option String
deriving DecidableEq

/-- The `Client` constructor.  `parse` stands for `JSON.parse` (`none` =
throws), `sign` for `jwt.sign` (`none` = throws), `exchange` for the axios
POST to the token endpoint (`Except.error` = non-success response).  The
constructor calls `initializeServiceAccountFlow` synchronously, which calls
the async `exchangeJWTForAccessToken` WITHOUT awaiting it: a rejection of
that promise is recorded as `asyncError` and never propagates to the
constructor's caller. -/
def constructClient (parse : String → Option ServiceAccountKey)
    (sign : ServiceAccountKey → Option String)
    (exchange : String → Except String String)
    (service_account_key : Option String) : CtorOutcome :=
  match service_account_key with
  | none =>
      { result := .ok (), exchangeAttempted := false
        accessToken := none, asyncError := none }
  | some key =>
      match parse key with
      | none =>
          { result := .error .malformedKey, exchangeAttempted := false
            accessToken := none, asyncError := none }
      | some sak =>
          match sign sak with
          | none =>
              { result := .error .signFailure, exchangeAttempted := false
                accessToken := none, asyncError := none }
          | some jwtToken =>
              match exchange jwtToken with
              | .ok tok =>
                  { result := .ok (), exchangeAttempted := true
                    accessToken := some tok, asyncError := none }
              | .error e =>
                  { result := .ok (), exchangeAttempted := true
                    accessToken := none, asyncError := some e }

/-- The cache TTL configured at src/service.ts line 36: 10 minutes in ms. -/
def TTL : Nat := 10 * 60 * 1000

/-- State of the module-level `serviceCache` (src/service.ts lines 33-40),
modelled from the documented semantics of the external `@isaacs/ttlcache`:
`entries` maps a service name to a stub id and its insertion time; an entry
is live while `now < insertTime + ttl`; eviction of an entry calls the
`dispose` callback, which calls `close()` on the stub, counted per stub id
in `closeCalls`.  Fresh stubs are numbered by `nextId`. -/
structure CacheState where
  entries : List (String × Nat × Nat)
  nextId : Nat
  closeCalls : Nat → Nat

/-- An entry is expired at time `t` once its age reaches the TTL. -/
def expiredAt (t : Nat) (e : String × Nat × Nat) : Bool :=
  e.2.2 + TTL ≤ t

/-- Evict every expired entry, invoking the dispose callback (`service.close()`)
once on each evicted stub. -/
def purge (t : Nat) (st : CacheState) : CacheState :=
  let dead := st.entries.filter (expiredAt t)
  { entries := st.entries.filter (fun e => !expiredAt t e)
    nextId := st.nextId
    closeCalls := fun i =>
      st.closeCalls i + (dead.filter (fun e => e.2.1 == i)).length }

/-- `serviceCache.get(name)` over the live entries. -/
def lookupEntry (entries : List (String × Nat × Nat)) (name : String) :
    Option (Nat × Nat) :=
  (entries.find? (fun e => e.1 == name)).map (fun e => e.2)

/-- `Service.loadService` (src/service.ts lines 105-125) at time `t`: on a
cache hit the cached stub is returned; on a miss a fresh stub is
constructed, stored with a fresh TTL, and returned. -/
def loadService (st : CacheState) (name : String) (t : Nat) : Nat × CacheState :=
  let st := purge t st
  match lookupEntry st.entries name with
  | some (id, _) => (id, st)
  | none =>
      (st.nextId,
       { entries := (name, st.nextId, t) :: st.entries
         nextId := st.nextId + 1
         closeCalls := st.closeCalls })

/-- Run a sequence of `loadService` calls from a state. -/
def runLoads (st : CacheState) : List (String × Nat) → CacheState
  | [] => st
  | (name, t) :: rest => runLoads (loadService st name t).2 rest

/-- The kind of a mutate operation. -/
inductive OpType where
  | create
  | update
  | remove
deriving DecidableEq

/-- A caller-supplied entity: its optional `exempt_policy_violation_keys`
field plus the rest of its payload, modelled abstractly. -/
structure Entity where
  exempt_policy_violation_keys : Option (List String)
  payload : List (String × String)
deriving DecidableEq

/-- An operation envelope produced by `buildOperations`: the operation kind
(the `operation` field), the nested entity payload (stored under the
`[type]` key), and the optional envelope-level exemption-keys and
update-mask fields. -/
structure Operation where
  opType : OpType
  entity : Entity
  exempt_policy_violation_keys : Option (List String)
  update_mask : Option (List String)
deriving DecidableEq

/-- `Service.buildOperations` on a single entity (src/service.ts lines
227-247).  `gfm` stands for the external
`getFieldMask(message.toObject(e, { defaults: false }))` derivation from
`./utils`.  Returns the built envelope together with the entity object as
the caller sees it after the call: for a "create" with a non-empty
exemption list, `delete e.exempt_policy_violation_keys` mutates the
caller's entity, and the envelope's nested payload aliases that same
object. -/
def buildOperation (gfm : Entity → List String) (type : OpType) (e : Entity) :
    Operation × Entity :=
  match type, e.exempt_policy_violation_keys with
  | .create, some (k :: ks) =>
      let e' : Entity := { e with exempt_policy_violation_keys := none }
      ({ opType := .create, entity := e'
         exempt_policy_violation_keys := some (k :: ks)
         update_mask := none }, e')
  | .update, _ =>
      ({ opType := .update, entity := e
         exempt_policy_violation_keys := none
         update_mask := some (gfm e) }, e)
  | t, _ =>
      ({ opType := t, entity := e
         exempt_policy_violation_keys := none
         update_mask := none }, e)

/-- `Service.buildOperations` (src/service.ts lines 222-250): map
`buildOperation` over the entities; the first component is the returned
`ops` array, the second the caller's entity array after the call (the
source mutates the entities in place). -/
def buildOperations (gfm : Entity → List String) (type : OpType)
    (entities : List Entity) : List Operation × List Entity :=
  (entities.map (fun e => (buildOperation gfm type e).1),
   entities.map (fun e => (buildOperation gfm type e).2))

/-- One element of the `mutations` argument of
`buildMutationRequestAndService`: the optional `operation` kind (defaulted
to "create" when absent), the resource payload and the exemption keys. -/
structure MutationInput where
  operation : Option OpType
  resource : Entity
  exempt_policy_violation_keys : Option (List String)
deriving DecidableEq

/-- The operation object built for one mutation inside
`buildMutationRequestAndService` (src/service.ts lines 199-213): the
operation kind after the `?? "create"` default, and the `update_mask`
attached only when `mutation.operation === "update"`. -/
structure BuiltMutation where
  operation : OpType
  resource : Entity
  exempt_policy_violation_keys : Option (List String)
  update_mask : Option (List String)
deriving DecidableEq

/-- The per-mutation envelope of `buildMutationRequestAndService`. -/
def buildMutation (gfm : Entity → List String) (m : MutationInput) :
    BuiltMutation :=
  { operation := m.operation.getD .create
    resource := m.resource
    exempt_policy_violation_keys := m.exempt_policy_violation_keys
    update_mask :=
      if m.operation == some .update then some (gfm m.resource) else none }

/-! ### Helper lemmas -/

/-- If filtering keeps exactly `[a]`, then `find?` returns `some a`. -/
theorem find_of_filter_singleton {α : Type} (p : α → Bool) :
    ∀ (l : List α) (a : α), l.filter p = [a] → l.find? p = some a := by
  intro l
  induction l with
  | nil => intro a h; simp [List.filter] at h
  | cons x xs ih =>
      intro a h
      by_cases hx : p x
      · simp [List.filter_cons, hx] at h
        obtain ⟨rfl, -⟩ := h
        simp [List.find?, hx]
      · simp [List.filter_cons, hx] at h
        simp [List.find?, hx]
        exact ih a h

/-- If filtering keeps nothing, then `find?` returns `none`. -/
theorem find_of_filter_nil {α : Type} (p : α → Bool) :
    ∀ (l : List α), l.filter p = [] → l.find? p = none := by
  intro l
  induction l with
  | nil => intro _; rfl
  | cons x xs ih =>
      intro h
      by_cases hx : p x
      · simp [List.filter_cons, hx] at h
      · simp [List.filter_cons, hx] at h
        simp [List.find?, hx]
        exact h

/-- A unique matching detail makes the extracted buffer its payload. -/
theorem buffer_of_matching (r : MutateResponse) (d0 : ErrorDetail)
    (h : matchingDetails r = [d0]) :
    ((r.partial_failure_error.bind (fun pfe => pfe.details)).bind
      (fun ds => ds.find? detailMatches)) = some d0 := by
  unfold matchingDetails at h
  cases hb : r.partial_failure_error.bind (fun pfe => pfe.details) with
  | none => rw [hb] at h; simp at h
  | some ds =>
      rw [hb] at h
      simp only [Option.getD_some] at h
      exact find_of_filter_singleton detailMatches ds d0 h

/-- No matching detail means no buffer is extracted. -/
theorem buffer_of_no_matching (r : MutateResponse)
    (h : matchingDetails r = []) :
    ((r.partial_failure_error.bind (fun pfe => pfe.details)).bind
      (fun ds => ds.find? detailMatches)) = none := by
  unfold matchingDetails at h
  cases hb : r.partial_failure_error.bind (fun pfe => pfe.details) with
  | none => rfl
  | some ds =>
      rw [hb] at h
      simp only [Option.getD_some] at h
      exact find_of_filter_nil detailMatches ds h

/-! ### Claim C1 -/

/-- C1, counterexample: `decodePartialFailureError` does not keep the other
fields of the input response: on a response carrying a `results` field the
output object no longer carries it, so the output is not the input
decorated with `mutate_operation_responses`. -/
theorem decodePartialFailureError_not_identity :
    ¬ ((decodePartialFailureError (fun _ => { errors := [] })
          { partial_failure_error := none
            otherFields := [("results", "r1")] }).otherFields
        = [("results", "r1")]) := by
  decide

/-- C1 (amended): `decodePartialFailureError` returns a fresh object holding
only the `mutate_operation_responses` field with the decoded partial
failures; fields of the input response other than `partial_failure_error`
are dropped, and the output depends only on `partial_failure_error`. -/
theorem decodePartialFailureError_only_responses
    (decode : Buffer → GoogleAdsFailure) (r : MutateResponse) :
    (decodePartialFailureError decode r).otherFields = [] ∧
    decodePartialFailureError decode r =
      decodePartialFailureError decode
        { partial_failure_error := r.partial_failure_error, otherFields := [] } :=
  ⟨rfl, rfl⟩

/-! ### Claim C2 -/

/-- C2: when the details list holds exactly one entry of the
GoogleAdsFailure type and its payload decodes to a failure with 2
sub-errors, `mutate_operation_responses` has length 1 and its entry carries
2 errors; when no detail entry matches, `mutate_operation_responses` is
empty. -/
theorem decodePartialFailureError_extraction (decode : Buffer → GoogleAdsFailure)
    (r rNoMatch : MutateResponse) (d0 : ErrorDetail)
    (h1 : matchingDetails r = [d0])
    (h2 : (decode d0.value).errors.length = 2)
    (h3 : matchingDetails rNoMatch = []) :
    (decodePartialFailureError decode r).mutate_operation_responses.length = 1 ∧
    ((decodePartialFailureError decode r).mutate_operation_responses.headD
        { errors := [] }).errors.length = 2 ∧
    (decodePartialFailureError decode rNoMatch).mutate_operation_responses = [] := by
  have hb := buffer_of_matching r d0 h1
  have hb' := buffer_of_no_matching rNoMatch h3
  refine ⟨?_, ?_, ?_⟩ <;> simp [decodePartialFailureError, hb, hb', h2]

/-- C2, witness: a concrete response whose single detail entry decodes to a
failure with two sub-errors, and a concrete response with no details. -/
theorem decodePartialFailureError_extraction_witness :
    (decodePartialFailureError
        (fun _ => ⟨[⟨"A", "a"⟩, ⟨"B", "b"⟩]⟩)
        ⟨some ⟨some [⟨"type.googleapis.com/google.ads.googleads.v16.errors.GoogleAdsFailure", [10, 2]⟩]⟩,
         []⟩).mutate_operation_responses.length = 1 ∧
    ((decodePartialFailureError
        (fun _ => ⟨[⟨"A", "a"⟩, ⟨"B", "b"⟩]⟩)
        ⟨some ⟨some [⟨"type.googleapis.com/google.ads.googleads.v16.errors.GoogleAdsFailure", [10, 2]⟩]⟩,
         []⟩).mutate_operation_responses.headD
        ⟨[]⟩).errors.length = 2 ∧
    (decodePartialFailureError
        (fun _ => ⟨[⟨"A", "a"⟩, ⟨"B", "b"⟩]⟩)
        ⟨none, []⟩).mutate_operation_responses = [] :=
  decodePartialFailureError_extraction _ _ _
    ⟨"type.googleapis.com/google.ads.googleads.v16.errors.GoogleAdsFailure", [10, 2]⟩
    (by decide) (by decide) (by decide)

/-! ### Claim C3 -/

/-- C3: on a transport error whose metadata has no entry under
`FAILURE_KEY`, `getGoogleAdsError` returns the original error unchanged,
whatever the decoder is. -/
theorem getGoogleAdsError_passthrough (decode : Buffer → GoogleAdsFailure)
    (error : TransportError)
    (h : metadataGet error.metadata FAILURE_KEY = none) :
    getGoogleAdsError decode error = .transport error := by
  unfold getGoogleAdsError
  rw [h]

/-- C3, witness: a concrete transport error whose metadata holds only an
unrelated key is passed through unchanged. -/
theorem getGoogleAdsError_passthrough_witness :
    metadataGet [("grpc-status-details-bin", [[7]])] FAILURE_KEY = none ∧
    getGoogleAdsError (fun _ => { errors := [] })
        { message := "deadline exceeded"
          metadata := [("grpc-status-details-bin", [[7]])] } =
      .transport
        { message := "deadline exceeded"
          metadata := [("grpc-status-details-bin", [[7]])] } :=
  ⟨by decide, getGoogleAdsError_passthrough _ _ (by decide)⟩

/-! ### Claim C9 -/

/-- C9: a matching detail entry whose payload decodes to a failure with an
empty errors list yields `mutate_operation_responses = []`, the very output
produced when no matching detail is present, so the two cases are
indistinguishable to the caller. -/
theorem decodePartialFailureError_empty_failure (decode : Buffer → GoogleAdsFailure)
    (r : MutateResponse) (d0 : ErrorDetail)
    (h1 : matchingDetails r = [d0])
    (h2 : (decode d0.value).errors = []) :
    (decodePartialFailureError decode r).mutate_operation_responses = [] ∧
    decodePartialFailureError decode r =
      decodePartialFailureError decode
        { partial_failure_error := none, otherFields := r.otherFields } := by
  have hb := buffer_of_matching r d0 h1
  constructor <;> simp [decodePartialFailureError, hb, h2]

/-- C9, witness: a concrete response with one matching detail entry whose
payload decodes to a failure with no sub-errors. -/
theorem decodePartialFailureError_empty_failure_witness :
    (decodePartialFailureError (fun _ => ⟨[]⟩)
        ⟨some ⟨some [⟨"type.googleapis.com/google.ads.googleads.v16.errors.GoogleAdsFailure", [0]⟩]⟩,
         []⟩).mutate_operation_responses = [] ∧
    decodePartialFailureError (fun _ => ⟨[]⟩)
        ⟨some ⟨some [⟨"type.googleapis.com/google.ads.googleads.v16.errors.GoogleAdsFailure", [0]⟩]⟩,
         []⟩ =
      decodePartialFailureError (fun _ => ⟨[]⟩) ⟨none, []⟩ :=
  decodePartialFailureError_empty_failure _ _
    ⟨"type.googleapis.com/google.ads.googleads.v16.errors.GoogleAdsFailure", [0]⟩
    (by decide) (by decide)

/-! ### Claim C5 -/

/-- C5, counterexample: with a well-formed key and successful signing, a
non-success response from the token-exchange endpoint does NOT surface any
error to the caller of the construction: the constructor completes with
`.ok`, the rejection lands only on the un-awaited promise. -/
theorem constructClient_exchange_error_not_surfaced :
    (constructClient (fun _ => some ⟨"sa@x.iam", "pemkey"⟩)
        (fun _ => some "signed.jwt") (fun _ => .error "invalid_grant")
        (some "\x7b\x7d")).result = .ok () ∧
    (constructClient (fun _ => some ⟨"sa@x.iam", "pemkey"⟩)
        (fun _ => some "signed.jwt") (fun _ => .error "invalid_grant")
        (some "\x7b\x7d")).asyncError = some "invalid_grant" := by
  decide

/-- C5 (amended): a malformed key document or a signing failure propagates
out of the construction; a non-success token-exchange response does not:
construction completes normally with no access token stored, and the
exchange error is raised only inside the un-awaited async exchange. -/
theorem constructClient_error_surfacing
    (parse : String → Option ServiceAccountKey)
    (sign : ServiceAccountKey → Option String)
    (exchange : String → Except String String) (key : String) :
    (parse key = none →
      (constructClient parse sign exchange (some key)).result =
        .error .malformedKey) ∧
    (∀ sak, parse key = some sak → sign sak = none →
      (constructClient parse sign exchange (some key)).result =
        .error .signFailure) ∧
    (∀ sak jwtToken e, parse key = some sak → sign sak = some jwtToken →
      exchange jwtToken = .error e →
      (constructClient parse sign exchange (some key)).result = .ok () ∧
      (constructClient parse sign exchange (some key)).accessToken = none ∧
      (constructClient parse sign exchange (some key)).asyncError = some e) := by
  refine ⟨?_, ?_, ?_⟩
  · intro h
    simp [constructClient, h]
  · intro sak hp hsig
    simp [constructClient, hp, hsig]
  · intro sak jwtToken e hp hsig hex
    refine ⟨?_, ?_, ?_⟩ <;> simp [constructClient, hp, hsig, hex]

/-- C5, witness: the three branches of the amended claim at concrete
parse/sign/exchange functions. -/
theorem constructClient_error_surfacing_witness :
    (constructClient (fun _ => none) (fun _ => some "j") (fun _ => .ok "t")
        (some "not-json")).result = .error .malformedKey ∧
    (constructClient (fun _ => some ⟨"e", "k"⟩) (fun _ => none)
        (fun _ => .ok "t") (some "good")).result = .error .signFailure ∧
    ((constructClient (fun _ => some ⟨"e", "k"⟩) (fun _ => some "j")
        (fun _ => .error "http 500") (some "good")).result = .ok () ∧
     (constructClient (fun _ => some ⟨"e", "k"⟩) (fun _ => some "j")
        (fun _ => .error "http 500") (some "good")).accessToken = none ∧
     (constructClient (fun _ => some ⟨"e", "k"⟩) (fun _ => some "j")
        (fun _ => .error "http 500") (some "good")).asyncError =
       some "http 500") :=
  ⟨(constructClient_error_surfacing (fun _ => none) (fun _ => some "j")
      (fun _ => .ok "t") "not-json").1 rfl,
   (constructClient_error_surfacing (fun _ => some ⟨"e", "k"⟩) (fun _ => none)
      (fun _ => .ok "t") "good").2.1 ⟨"e", "k"⟩ rfl rfl,
   (constructClient_error_surfacing (fun _ => some ⟨"e", "k"⟩)
      (fun _ => some "j") (fun _ => .error "http 500") "good").2.2
     ⟨"e", "k"⟩ "j" "http 500" rfl rfl rfl⟩

/-! ### Claim C6 -/

/-- C6: a key document that fails to parse makes the construction throw
before any token-exchange request is issued. -/
theorem constructClient_malformed_key
    (parse : String → Option ServiceAccountKey)
    (sign : ServiceAccountKey → Option String)
    (exchange : String → Except String String) (key : String)
    (h : parse key = none) :
    (constructClient parse sign exchange (some key)).result =
      .error .malformedKey ∧
    (constructClient parse sign exchange (some key)).exchangeAttempted = false := by
  constructor <;> simp [constructClient, h]

/-- C6, witness: a concrete malformed key document. -/
theorem constructClient_malformed_key_witness :
    (constructClient (fun _ => none) (fun _ => some "j") (fun _ => .ok "t")
        (some "oops")).result = .error .malformedKey ∧
    (constructClient (fun _ => none) (fun _ => some "j") (fun _ => .ok "t")
        (some "oops")).exchangeAttempted = false :=
  constructClient_malformed_key _ _ _ _ rfl

/-! ### Claim C7 -/

/-- C7: a "create" operation on an entity with a non-empty exemption-key
list puts the keys on the operation envelope and removes them from the
nested entity payload; "update" and "remove" envelopes carry no
exemption-key field. -/
theorem buildOperations_exemption_keys (gfm : Entity → List String)
    (type : OpType) (es : List Entity) :
    (buildOperations gfm type es).1 =
      es.map (fun e => (buildOperation gfm type e).1) ∧
    (∀ e k ks, e.exempt_policy_violation_keys = some (k :: ks) →
      (buildOperation gfm .create e).1.exempt_policy_violation_keys =
        some (k :: ks) ∧
      (buildOperation gfm .create e).1.entity.exempt_policy_violation_keys =
        none) ∧
    (∀ e, type ≠ .create →
      (buildOperation gfm type e).1.exempt_policy_violation_keys = none) := by
  refine ⟨rfl, ?_, ?_⟩
  · intro e k ks h
    constructor <;> simp [buildOperation, h]
  · intro e hne
    cases type with
    | create => exact absurd rfl hne
    | update => simp [buildOperation]
    | remove => simp [buildOperation]

/-- C7, witness: a concrete "create" with exemption key "POLICY_X", and
"update"/"remove" envelopes on the same entity. -/
theorem buildOperations_exemption_keys_witness :
    ((buildOperation (fun _ => []) .create
        ⟨some ["POLICY_X"], [("name", "ad1")]⟩).1.exempt_policy_violation_keys =
      some ["POLICY_X"] ∧
     (buildOperation (fun _ => []) .create
        ⟨some ["POLICY_X"], [("name", "ad1")]⟩).1.entity.exempt_policy_violation_keys =
      none) ∧
    (buildOperation (fun _ => []) .update
        ⟨some ["POLICY_X"], [("name", "ad1")]⟩).1.exempt_policy_violation_keys =
      none ∧
    (buildOperation (fun _ => []) .remove
        ⟨some ["POLICY_X"], [("name", "ad1")]⟩).1.exempt_policy_violation_keys =
      none :=
  ⟨(buildOperations_exemption_keys (fun _ => []) .create []).2.1 _ "POLICY_X" [] rfl,
   (buildOperations_exemption_keys (fun _ => []) .update []).2.2 _ (by decide),
   (buildOperations_exemption_keys (fun _ => []) .remove []).2.2 _ (by decide)⟩

/-! ### Claim C8 -/

/-- C8: in both operation builders, an `update_mask` is attached to an
operation exactly when the operation kind is "update"; "create" and
"remove" operations carry none. -/
theorem update_mask_iff_update (gfm : Entity → List String) (type : OpType)
    (es : List Entity) :
    (buildOperations gfm type es).1 =
      es.map (fun e => (buildOperation gfm type e).1) ∧
    (∀ e, ((buildOperation gfm type e).1.update_mask).isSome =
      (type == .update)) ∧
    (∀ m : MutationInput,
      ((buildMutation gfm m).update_mask).isSome =
        ((buildMutation gfm m).operation == .update)) := by
  refine ⟨rfl, ?_, ?_⟩
  · intro e
    cases type with
    | create =>
        cases he : e.exempt_policy_violation_keys with
        | none => simp [buildOperation, he]
        | some l => cases l <;> simp [buildOperation, he]
    | update => simp [buildOperation]
    | remove => simp [buildOperation]
  · intro m
    cases hm : m.operation with
    | none => simp [buildMutation, hm]
    | some t => cases t <;> simp [buildMutation, hm]

/-! ### Claim C10 -/

/-- C10: `buildOperations` mutates its caller-supplied entities: on a
"create" whose entity carries a non-empty exemption-key list, the field is
deleted from the caller's entity itself and the envelope's nested payload
is that same mutated entity; entities of "update" and "remove" calls come
back unchanged. -/
theorem buildOperations_frame (gfm : Entity → List String) (es : List Entity) :
    (buildOperations gfm .create es).2 =
      es.map (fun e => (buildOperation gfm .create e).2) ∧
    (∀ e k ks, e.exempt_policy_violation_keys = some (k :: ks) →
      (buildOperation gfm .create e).2 =
        { e with exempt_policy_violation_keys := none } ∧
      (buildOperation gfm .create e).1.entity =
        (buildOperation gfm .create e).2) ∧
    (∀ type, type ≠ OpType.create →
      ∀ es' : List Entity, (buildOperations gfm type es').2 = es') := by
  refine ⟨rfl, ?_, ?_⟩
  · intro e k ks h
    constructor <;> simp [buildOperation, h]
  · intro type hne es'
    cases type with
    | create => exact absurd rfl hne
    | update => simp [buildOperations, buildOperation]
    | remove => simp [buildOperations, buildOperation]

/-- C10, witness: a concrete "create" entity loses its exemption-key field,
while "update" and "remove" leave the caller's entities untouched. -/
theorem buildOperations_frame_witness :
    ((buildOperation (fun _ => []) .create
        ⟨some ["POLICY_X"], [("name", "ad1")]⟩).2 =
      ⟨none, [("name", "ad1")]⟩ ∧
     (buildOperation (fun _ => []) .create
        ⟨some ["POLICY_X"], [("name", "ad1")]⟩).1.entity =
      (buildOperation (fun _ => []) .create
        ⟨some ["POLICY_X"], [("name", "ad1")]⟩).2) ∧
    (buildOperations (fun _ => []) .update
        [⟨some ["POLICY_X"], [("name", "ad1")]⟩]).2 =
      [⟨some ["POLICY_X"], [("name", "ad1")]⟩] ∧
    (buildOperations (fun _ => []) .remove
        [⟨some ["POLICY_X"], [("name", "ad1")]⟩]).2 =
      [⟨some ["POLICY_X"], [("name", "ad1")]⟩] :=
  ⟨(buildOperations_frame (fun _ => []) []).2.1 _ "POLICY_X" [] rfl,
   (buildOperations_frame (fun _ => []) []).2.2 .update (by decide) _,
   (buildOperations_frame (fun _ => []) []).2.2 .remove (by decide) _⟩

/-! ### Claim C4 -/

/-- Filtering twice with two predicates commutes. -/
theorem filter_swap {α : Type} (p q : α → Bool) (l : List α) :
    (l.filter q).filter p = (l.filter p).filter q := by
  simp [List.filter_filter, Bool.and_comm]

/-- Purging a cache that holds no entry for stub `s` leaves the close
count of `s` untouched. -/
theorem purge_closeCalls_of_absent (t : Nat) (st : CacheState) (s : Nat)
    (hns : ∀ e ∈ st.entries, e.2.1 ≠ s) :
    (purge t st).closeCalls s = st.closeCalls s := by
  have hdead : (st.entries.filter (expiredAt t)).filter
      (fun e => e.2.1 == s) = [] := by
    refine List.filter_eq_nil_iff.mpr ?_
    intro e he
    simp only [beq_iff_eq]
    exact hns e (List.mem_of_mem_filter he)
  show st.closeCalls s +
      ((st.entries.filter (expiredAt t)).filter (fun e => e.2.1 == s)).length =
    st.closeCalls s
  rw [hdead]
  rfl

/-- A `loadService` step never touches the close count of a stub that is
not cached, keeps it uncached, and keeps its id below `nextId`. -/
theorem loadService_preserves (s : Nat) (st : CacheState) (name : String)
    (t : Nat) (hns : ∀ e ∈ st.entries, e.2.1 ≠ s) (hlt : s < st.nextId) :
    (loadService st name t).2.closeCalls s = st.closeCalls s ∧
    (∀ e ∈ (loadService st name t).2.entries, e.2.1 ≠ s) ∧
    s < (loadService st name t).2.nextId := by
  have hpc := purge_closeCalls_of_absent t st s hns
  have hpe : ∀ e ∈ (purge t st).entries, e.2.1 ≠ s := by
    intro e he
    exact hns e (List.mem_of_mem_filter he)
  cases hl : lookupEntry (purge t st).entries name with
  | some pair =>
      simp only [loadService, hl]
      exact ⟨hpc, hpe, hlt⟩
  | none =>
      simp only [loadService, hl]
      refine ⟨hpc, ?_, Nat.lt_succ_of_lt hlt⟩
      intro e he
      rcases List.mem_cons.mp he with h | h
      · rw [h]
        exact Nat.ne_of_gt hlt
      · exact hpe e h

/-- A whole run of `loadService` calls leaves the close count of an
uncached stub untouched. -/
theorem runLoads_closeCalls (s : Nat) :
    ∀ (ops : List (String × Nat)) (st : CacheState),
      (∀ e ∈ st.entries, e.2.1 ≠ s) → s < st.nextId →
      (runLoads st ops).closeCalls s = st.closeCalls s := by
  intro ops
  induction ops with
  | nil => intro st _ _; rfl
  | cons op rest ih =>
      intro st hns hlt
      obtain ⟨name, t⟩ := op
      have h := loadService_preserves s st name t hns hlt
      rw [runLoads, ih _ h.2.1 h.2.2, h.1]

/-- C4: with a stub `s` cached for `name` since `t0` (its only entry, not
yet closed, id below the fresh-id counter), every `loadService` within the
TTL window returns `s` again; the first `loadService` at or past
`t0 + TTL` constructs and returns a fresh stub and the evicted stub `s`
receives exactly one close call — its close count becomes 1 and stays 1
over any further sequence of `loadService` calls. -/
theorem loadService_ttl (st : CacheState) (name : String) (s t0 t1 t2 : Nat)
    (hname : st.entries.filter (fun e => e.1 == name) = [(name, s, t0)])
    (hs : st.entries.filter (fun e => e.2.1 == s) = [(name, s, t0)])
    (hclose : st.closeCalls s = 0)
    (hfresh : s < st.nextId)
    (h1 : t1 < t0 + TTL)
    (h2 : t0 + TTL ≤ t2) :
    (loadService st name t1).1 = s ∧
    (loadService st name t2).1 = st.nextId ∧
    st.nextId ≠ s ∧
    (loadService st name t2).2.closeCalls s = 1 ∧
    ∀ ops, (runLoads (loadService st name t2).2 ops).closeCalls s = 1 := by
  have halive1 : expiredAt t1 (name, s, t0) = false := by
    simp [expiredAt, Nat.not_le.mpr h1]
  have hexp2 : expiredAt t2 (name, s, t0) = true := by
    simp [expiredAt, h2]
  have hfind1 : (st.entries.filter (fun e => !expiredAt t1 e)).find?
      (fun e => e.1 == name) = some (name, s, t0) := by
    apply find_of_filter_singleton
    rw [filter_swap, hname]
    simp [List.filter, halive1]
  have hfind2 : (st.entries.filter (fun e => !expiredAt t2 e)).find?
      (fun e => e.1 == name) = none := by
    apply find_of_filter_nil
    rw [filter_swap, hname]
    simp [List.filter, hexp2]
  have hpe1 : (purge t1 st).entries =
      st.entries.filter (fun e => !expiredAt t1 e) := rfl
  have hpe2 : (purge t2 st).entries =
      st.entries.filter (fun e => !expiredAt t2 e) := rfl
  have hlook1 : lookupEntry (purge t1 st).entries name = some (s, t0) := by
    unfold lookupEntry
    rw [hpe1, hfind1]
    rfl
  have hlook2 : lookupEntry (purge t2 st).entries name = none := by
    unfold lookupEntry
    rw [hpe2, hfind2]
    rfl
  have hpart1 : (loadService st name t1).1 = s := by
    simp only [loadService, hlook1]
  have hdead2 : (st.entries.filter (expiredAt t2)).filter
      (fun e => e.2.1 == s) = [(name, s, t0)] := by
    rw [filter_swap, hs]
    simp [List.filter, hexp2]
  have hclose2 : (purge t2 st).closeCalls s = 1 := by
    show st.closeCalls s +
        ((st.entries.filter (expiredAt t2)).filter (fun e => e.2.1 == s)).length = 1
    rw [hdead2, hclose]
    rfl
  have hpart2 : (loadService st name t2).1 = st.nextId := by
    simp only [loadService, hlook2]
    rfl
  have hstate2 : (loadService st name t2).2 =
      { entries := (name, st.nextId, t2) :: (purge t2 st).entries
        nextId := st.nextId + 1
        closeCalls := (purge t2 st).closeCalls } := by
    simp only [loadService, hlook2]
    rfl
  have hns2 : ∀ e ∈ (loadService st name t2).2.entries, e.2.1 ≠ s := by
    rw [hstate2]
    intro e he
    rcases List.mem_cons.mp he with h | h
    · rw [h]
      exact Nat.ne_of_gt hfresh
    · rw [hpe2] at h
      intro habs
      have hmem : e ∈ st.entries.filter (fun e => e.2.1 == s) := by
        refine List.mem_filter.mpr ⟨List.mem_of_mem_filter h, ?_⟩
        simp [habs]
      rw [hs] at hmem
      have he0 : e = (name, s, t0) := by simpa using hmem
      have halive : (fun e => !expiredAt t2 e) e = true := (List.mem_filter.mp h).2
      rw [he0] at halive
      simp [hexp2] at halive
  have hclose2' : (loadService st name t2).2.closeCalls s = 1 := by
    rw [hstate2]
    exact hclose2
  refine ⟨hpart1, hpart2, Nat.ne_of_gt hfresh, hclose2', ?_⟩
  intro ops
  have hlt2 : s < (loadService st name t2).2.nextId := by
    rw [hstate2]
    exact Nat.lt_succ_of_lt hfresh
  rw [runLoads_closeCalls s ops _ hns2 hlt2, hclose2']

/-- C4, witness: a one-entry cache holding stub 0 for the Google Ads
service since time 0; a hit at 599999 ms returns stub 0, the call at
600000 ms returns fresh stub 1, stub 0's close count becomes 1 and stays 1
after one more call. -/
theorem loadService_ttl_witness :
    (loadService
        ⟨[("GoogleAdsServiceClient", 0, 0)], 1, fun _ => 0⟩
        "GoogleAdsServiceClient" 599999).1 = 0 ∧
    (loadService
        ⟨[("GoogleAdsServiceClient", 0, 0)], 1, fun _ => 0⟩
        "GoogleAdsServiceClient" 600000).1 = 1 ∧
    (loadService
        ⟨[("GoogleAdsServiceClient", 0, 0)], 1, fun _ => 0⟩
        "GoogleAdsServiceClient" 600000).2.closeCalls 0 = 1 ∧
    (runLoads
        (loadService
          ⟨[("GoogleAdsServiceClient", 0, 0)], 1, fun _ => 0⟩
          "GoogleAdsServiceClient" 600000).2
        [("GoogleAdsServiceClient", 700000)]).closeCalls 0 = 1 := by
  have h := loadService_ttl
    ⟨[("GoogleAdsServiceClient", 0, 0)], 1, fun _ => 0⟩
    "GoogleAdsServiceClient" 0 0 599999 600000
    (by decide) (by decide) rfl (by decide) (by decide) (by decide)
  exact ⟨h.1, h.2.1, h.2.2.2.1, h.2.2.2.2 [("GoogleAdsServiceClient", 700000)]⟩

end GoogleAdsApi
